import Mathlib

/-!
# Verification development for the titan-rs graphics core

Shallow embedding of the repository's source files:

* `src/titan-engine/src/error/mod.rs` — the `Error` taxonomy;
* `src/titan-engine/src/graphics/instance.rs` — `Instance::new`;
* `src/src/graphics/device.rs` — `Device::drop`;
* `src/titan-engine/src/graphics/sync/semaphore.rs` — `Semaphore::drop`;
* `src/titan_core/src/graphics/frame/ui_draw/mod.rs` — `UiDrawSystem`.

Driver (Vulkan) calls are modelled by explicit environments of responses;
panics are modelled by `Option` (`none` = panic); GPU objects irrelevant to
control flow (queues, pipelines, samplers, buffer pools) are elided.
-/

/-- Subset of the native driver status codes (`ash::vk::Result`) used as
concrete inputs. -/
inductive VkResult
  | success
  | errorOutOfHostMemory
  | errorInitializationFailed
  | errorLayerNotPresent
  | errorIncompatibleDriver
deriving DecidableEq, Repr

/-- The `Display`/`to_string` rendering of a native status code
(`error.to_string()` in `Instance::new`). -/
def VkResult.display : VkResult → String
  | .success => "SUCCESS"
  | .errorOutOfHostMemory => "ERROR_OUT_OF_HOST_MEMORY"
  | .errorInitializationFailed => "ERROR_INITIALIZATION_FAILED"
  | .errorLayerNotPresent => "ERROR_LAYER_NOT_PRESENT"
  | .errorIncompatibleDriver => "ERROR_INCOMPATIBLE_DRIVER"

/-- Lower causes stored in `Error::Other::source`
(`Option<Box<dyn std::error::Error>>`): either a native status code converted
with `error.into()`, or the dynamic-library loading error of `ash::Entry::new`. -/
inductive ErrSource
  | vk (result : VkResult)
  | loading (message : String)
deriving DecidableEq, Repr

/-- The error enum of `titan-engine/src/error/mod.rs` (lines 8–17): exactly two
variants, `Graphics { result }` and `Other { message, source }`. -/
inductive Error
  | Graphics (result : VkResult)
  | Other (message : String) (source : Option ErrSource)
deriving DecidableEq, Repr

/-- `impl From<vk::Result> for Error` (error/mod.rs lines 37–41): a bare `?`
on a native result produces the `Graphics` variant. This is what every plain
`?` in `Instance::new` applies. -/
def Error.fromVkResult (result : VkResult) : Error :=
  Error.Graphics result

/-- Whether an `Error` is the `Graphics` variant. -/
def Error.isGraphics : Error → Bool
  | .Graphics _ => true
  | .Other _ _ => false

/-- Environment of driver responses consumed by `Instance::new`
(instance.rs lines 78–187), in call order.  `createInstance` receives the
enabled layer and extension name lists actually put into the create info. -/
structure VulkanEntryEnv where
  /-- `ash::Entry::new()`; `Except.error` carries the loading-failure message. -/
  load : Except String Unit
  /-- `entry.try_enumerate_instance_version()?` — `Ok(Option<u32>)` or a
  native failure. -/
  tryEnumerateVersion : Except VkResult (Option Nat)
  /-- `enumerate_instance_layer_properties()?` — available layer names. -/
  layerProperties : Except VkResult (List String)
  /-- `enumerate_instance_extension_properties()?` — available extension
  names. -/
  extensionProperties : Except VkResult (List String)
  /-- `ash_window::enumerate_required_extensions(window)?`. -/
  surfaceExtensions : Except VkResult (List String)
  /-- `entry_loader.create_instance(&create_info, None)` — given the enabled
  layer and extension names, the raw instance handle or a native failure. -/
  createInstance : List String → List String → Except VkResult Nat

/-- Application configuration as far as `Instance::new` reads it:
`CString::new(config.name()).unwrap()` panics iff the name holds an interior
NUL byte. -/
structure Config where
  name : String
deriving DecidableEq

/-- Whether `CString::new` fails on this string (interior NUL byte). -/
def hasNulByte (s : String) : Bool :=
  s.data.contains (Char.ofNat 0)

/-- `VK_LAYER_KHRONOS_validation` (instance.rs line 27). -/
def VALIDATION_LAYER_NAME : String := "VK_LAYER_KHRONOS_validation"

/-- `DebugUtils::name()` — the debug-messenger extension name. -/
def DEBUG_UTILS_EXTENSION_NAME : String := "VK_EXT_debug_utils"

/-- `Instance::new(config, window)` (instance.rs lines 78–187), modelled over a
response environment.  Result: `none` models a panic (the
`CString::new(config.name()).unwrap()` on line 102; the engine-name constant
never holds a NUL and its unwrap cannot fail); `some (Except.error e)` models
`Err(e)`; `some (Except.ok h)` models success with raw handle `h` (the final
registry insertion is elided — no claim depends on it).
`enableValidation` models `cfg!(debug_assertions)` (line 30). -/
def instanceNew (enableValidation : Bool) (config : Config)
    (env : VulkanEntryEnv) : Option (Except Error Nat) :=
  -- line 80–85: entry loader; load failure → Other with fixed message
  match env.load with
  | .error e =>
      some (.error (.Other "Vulkan library cannot be loaded" (some (.loading e))))
  | .ok _ =>
  -- line 86: `try_enumerate_instance_version()?` → Graphics on failure
  match env.tryEnumerateVersion with
  | .error r => some (.error (Error.fromVkResult r))
  | .ok _tryVersion =>
  -- lines 97–99: layer/extension enumeration, `?` → Graphics on failure
  match env.layerProperties with
  | .error r => some (.error (Error.fromVkResult r))
  | .ok _availableLayers =>
  match env.extensionProperties with
  | .error r => some (.error (Error.fromVkResult r))
  | .ok availableExtensions =>
  -- line 102: `CString::new(config.name()).unwrap()` — panics on interior NUL
  if hasNulByte config.name then none
  else
  -- lines 120–129: enabled layer/extension selection (validation only)
  let enabledLayers := if enableValidation then [VALIDATION_LAYER_NAME] else []
  let enabledExtensions :=
    if enableValidation && availableExtensions.contains DEBUG_UTILS_EXTENSION_NAME
    then [DEBUG_UTILS_EXTENSION_NAME] else []
  -- lines 132–133: required surface extensions, `?` → Graphics on failure
  match env.surfaceExtensions with
  | .error r => some (.error (Error.fromVkResult r))
  | .ok surfaceExtensionNames =>
  let enabledExtensions := enabledExtensions ++ surfaceExtensionNames
  -- lines 148–155: `create_instance` failure is mapped explicitly to
  -- `Error::Other { message: error.to_string(), source: Some(error.into()) }`
  match env.createInstance enabledLayers enabledExtensions with
  | .error r => some (.error (.Other r.display (some (.vk r))))
  | .ok handle => some (.ok handle)

/-- Native driver calls that the destructors of this codebase can issue. -/
inductive NativeCall
  | deviceWaitIdle
  | destroyDevice
  | destroySemaphore (device : Nat) (semaphore : Nat)
  | destroyInstance
deriving DecidableEq, Repr

/-- The sequence of native driver calls issued by `Device::drop`
(src/src/graphics/device.rs lines 117–123): the body is the single statement
`unsafe { self.loader.destroy_device(None) }`. -/
def deviceDropTrace : List NativeCall :=
  [NativeCall.destroyDevice]

/-!
## Generational slot map

Model of the `slotmap` crate's `SlotMap<DefaultKey, V>` as used by the device
registry and by `UiDrawSystem::user_texture_descriptor_sets`: a generational
arena.  Each slot carries a version number; a slot is occupied iff its version
is odd.  Keys are (slot index, version) pairs; a lookup succeeds only when the
key's version matches the (odd) slot version.  Insertion reuses the head of
the free list, bumping the slot's even version to the next odd one; removal
bumps the odd version to the next even one and pushes the index on the free
list.
-/

/-- A key of the generational slot map (`slotmap::DefaultKey`): slot index and
version, both `u32` in the source. -/
structure KeyM where
  idx : Nat
  version : Nat
deriving DecidableEq, Repr

/-- `KeyData::as_ffi`: `(version << 32) | idx`. -/
def KeyM.asFfi (k : KeyM) : Nat :=
  k.version * 2 ^ 32 + k.idx

/-- Bitwise OR with 1 (sets the lowest bit), written arithmetically. -/
def orOne (n : Nat) : Nat :=
  2 * (n / 2) + 1

/-- `KeyData::from_ffi`: index from the low 32 bits, version from the high 32
bits with the lowest bit forced (occupied versions are odd). -/
def KeyM.fromFfi (n : Nat) : KeyM :=
  ⟨n % 2 ^ 32, orOne (n / 2 ^ 32)⟩

/-- One slot of the arena: version (occupied iff odd) and stored value. -/
structure Slot (V : Type) where
  version : Nat
  value : Option V
deriving DecidableEq, Repr

/-- The generational slot map: slot list plus free-slot index list (head is
reused first, as by the crate's intrusive free list). -/
structure SlotMapM (V : Type) where
  slots : List (Slot V)
  free : List Nat
deriving DecidableEq, Repr

namespace SlotMapM

/-- The empty slot map (`SlotMap::default()`). -/
def empty {V : Type} : SlotMapM V :=
  ⟨[], []⟩

/-- `SlotMap::insert`: reuse the head of the free list (bumping the slot's
even version to odd), or append a fresh slot with version 1.  Returns the new
key and the updated map. -/
def insert {V : Type} (m : SlotMapM V) (v : V) : KeyM × SlotMapM V :=
  match m.free with
  | [] => (⟨m.slots.length, 1⟩, ⟨m.slots ++ [⟨1, some v⟩], []⟩)
  | i :: rest =>
    match m.slots[i]? with
    | some sl =>
        (⟨i, sl.version + 1⟩, ⟨m.slots.set i ⟨sl.version + 1, some v⟩, rest⟩)
    | none => (⟨m.slots.length, 1⟩, ⟨m.slots ++ [⟨1, some v⟩], rest⟩)

/-- `SlotMap::get`: the value at the key's slot, provided the slot exists and
its (odd) version matches the key's. -/
def get {V : Type} (m : SlotMapM V) (k : KeyM) : Option V :=
  match m.slots[k.idx]? with
  | some sl =>
      if sl.version = k.version ∧ sl.version % 2 = 1 then sl.value else none
  | none => none

/-- `SlotMap::remove` (the returned value is ignored by all call sites in this
codebase): on a version match, clear the slot, bump its version to even, and
push the index on the free list; otherwise no-op. -/
def remove {V : Type} (m : SlotMapM V) (k : KeyM) : SlotMapM V :=
  match m.slots[k.idx]? with
  | some sl =>
      if sl.version = k.version ∧ sl.version % 2 = 1 then
        ⟨m.slots.set k.idx ⟨sl.version + 1, none⟩, k.idx :: m.free⟩
      else m
  | none => m

/-- Well-formedness of a slot map: the free list has no duplicates, and every
free index denotes an existing slot of even (unoccupied) version.  This holds
for every map reachable from `empty` by `insert`/`remove`
(`SlotMapM.WF_empty`, `SlotMapM.WF_insert`, `SlotMapM.WF_remove`). -/
def WF {V : Type} (m : SlotMapM V) : Prop :=
  m.free.Nodup ∧
    ∀ i ∈ m.free, ∃ sl, m.slots[i]? = some sl ∧ sl.version % 2 = 0

end SlotMapM

/-!
## UI draw system

Embedding of `titan_core/src/graphics/frame/ui_draw/mod.rs`.  Descriptor sets
are represented by their construction data; the graphics queue, pipeline,
sampler and pooled vertex/index buffers do not influence any claimed
behaviour and are elided.  Fallible GPU allocation paths (command-buffer
allocation, buffer-chunk allocation, image upload) are modelled as
succeeding; the panic sites of `draw` (the `unwrap` on the cached base
descriptor set and the `expect` on a user texture lookup) are modelled by
`Option` (`none` = panic).
-/

/-- A GPU image as built by the atlas-upload path: dimensions plus the pixel
data actually uploaded (`ImmutableImage::from_iter`). -/
structure ImageM where
  width : Nat
  height : Nat
  data : List Nat
deriving DecidableEq, Repr

/-- An image view (`ImageViewAbstract`): either a caller-supplied view passed
to `register_texture`, or a view of an image built from the texture atlas
(`ImageView::new(image)`). -/
inductive ImageViewM
  | user (handle : Nat)
  | ofImage (img : ImageM)
deriving DecidableEq, Repr

/-- A descriptor set as built by `UiDrawSystem::image_descriptor_set`: one
sampled image (the sampler is a fixed field of the system). -/
inductive DS
  | sampledImage (view : ImageViewM)
deriving DecidableEq, Repr

/-- `egui::TextureId`: the built-in font atlas (`Egui`) or a user-registered
texture carrying the FFI-encoded slot-map key. -/
inductive TextureId
  | Egui
  | User (id : Nat)
deriving DecidableEq, Repr

/-- The `egui` texture atlas (`egui::Texture`): monotonic version counter,
dimensions, and a single-channel pixel buffer. -/
structure TextureAtlas where
  version : Nat
  width : Nat
  height : Nat
  pixels : List Nat
deriving DecidableEq, Repr

/-- The image uploaded for a texture atlas (ui_draw/mod.rs lines 179–196):
each single-channel pixel `r` is expanded to four channels `[r, r, r, r]`. -/
def atlasImage (t : TextureAtlas) : ImageM :=
  ⟨t.width, t.height, t.pixels.flatMap (fun r => [r, r, r, r])⟩

/-- A UI vertex (`egui::epaint::Vertex`, converted by `UiVertex::from`). -/
structure VertexM where
  pos : ℚ × ℚ
  uv : ℚ × ℚ
  color : Nat
deriving DecidableEq, Repr

/-- A clip rectangle in logical units (`egui::Rect` of a `ClippedMesh`). -/
structure RectQ where
  minx : ℚ
  miny : ℚ
  maxx : ℚ
  maxy : ℚ
deriving DecidableEq, Repr

/-- One `egui::ClippedMesh`: clip rectangle, vertices, indices, texture
reference. -/
structure Mesh where
  rect : RectQ
  vertices : List VertexM
  indices : List Nat
  textureId : TextureId
deriving DecidableEq, Repr

/-- `crate::window::Size`: viewport size in physical pixels. -/
structure SizeM where
  width : Nat
  height : Nat
deriving DecidableEq, Repr

/-- Rust `f32::clamp(lo, hi)`: `lo` if below, `hi` if above, else unchanged
(callers of this model always have `lo ≤ hi`). -/
def clampQ (x lo hi : ℚ) : ℚ :=
  if x < lo then lo else if x > hi then hi else x

/-- Rust `f32::round`: round half away from zero. -/
def roundQ (x : ℚ) : ℚ :=
  if x < 0 then -(((⌊-x + 1 / 2⌋ : ℤ) : ℚ)) else ((⌊x + 1 / 2⌋ : ℤ) : ℚ)

/-- Rust `as u32` on a float: saturating conversion — negative values to 0,
values past `u32::MAX` to `u32::MAX`, otherwise truncation. -/
def castU32 (x : ℚ) : Nat :=
  min (Int.toNat ⌊x⌋) (2 ^ 32 - 1)

/-- A recorded scissor rectangle (`vulkano` `Scissor`): integer pixel origin
and dimensions. -/
structure ScissorM where
  origin : Nat × Nat
  dimensions : Nat × Nat
deriving DecidableEq, Repr

/-- The per-mesh scissor computation of `UiDrawSystem::draw`
(ui_draw/mod.rs lines 214–240): scale the mesh rectangle by the display scale
factor, clamp min to the viewport, clamp max between min and the viewport,
then round — origin from the rounded min, dimensions from the rounded max
minus the (un-rounded) clamped min. -/
def scissorOf (rect : RectQ) (scaleFactor width height : ℚ) : ScissorM :=
  let minx := clampQ (rect.minx * scaleFactor) 0 width
  let miny := clampQ (rect.miny * scaleFactor) 0 height
  let maxx := clampQ (rect.maxx * scaleFactor) minx width
  let maxy := clampQ (rect.maxy * scaleFactor) miny height
  { origin := (castU32 (roundQ minx), castU32 (roundQ miny)),
    dimensions :=
      (castU32 (roundQ maxx - minx), castU32 (roundQ maxy - miny)) }

/-- The state of a `UiDrawSystem` (ui_draw/mod.rs lines 32–56) as far as it
influences behaviour: the stored atlas version, the cached base-texture
descriptor set, and the user-texture registry. -/
structure UiDrawSystemM where
  textureVersion : Nat
  textureDescriptorSet : Option DS
  userTextureDescriptorSets : SlotMapM DS
deriving DecidableEq, Repr

/-- The state built by `UiDrawSystem::new` (ui_draw/mod.rs lines 115–124):
atlas version 0, no cached base-texture descriptor set, empty user-texture
registry.  (Pipeline/sampler creation failures make `new` return `Err` and
produce no state at all; the claims concern the successfully constructed
state.) -/
def uiDrawSystemNew : UiDrawSystemM :=
  { textureVersion := 0
    textureDescriptorSet := none
    userTextureDescriptorSets := SlotMapM.empty }

namespace UiDrawSystemM

/-- `UiDrawSystem::register_texture` (lines 141–149): build a sampled-image
descriptor set for the supplied view, insert it into the user-texture
registry, and return `TextureId::User` of the FFI-encoded key.  (The
descriptor-set allocation error path returns before any state change and is
elided.) -/
def registerTexture (s : UiDrawSystemM) (imageView : Nat) :
    TextureId × UiDrawSystemM :=
  let ds := DS.sampledImage (ImageViewM.user imageView)
  let r := s.userTextureDescriptorSets.insert ds
  (TextureId.User r.1.asFfi, { s with userTextureDescriptorSets := r.2 })

/-- `UiDrawSystem::unregister_texture` (lines 152–158): remove the decoded
key if the id is `User`, no-op for the built-in `Egui` id. -/
def unregisterTexture (s : UiDrawSystemM) (textureId : TextureId) :
    UiDrawSystemM :=
  match textureId with
  | TextureId.User id =>
      { s with userTextureDescriptorSets :=
          s.userTextureDescriptorSets.remove (KeyM.fromFfi id) }
  | TextureId.Egui => s

/-- Descriptor-set resolution inside `draw` (lines 253–263): the cached base
set for `Egui` (`unwrap` — `none` is a panic), or the registered user set for
`User` (`expect` — `none` is a panic). -/
def resolveDescriptorSet (s : UiDrawSystemM) : TextureId → Option DS
  | TextureId.Egui => s.textureDescriptorSet
  | TextureId.User id => s.userTextureDescriptorSets.get (KeyM.fromFfi id)

end UiDrawSystemM

/-- One recorded indexed draw (the command group appended per mesh,
lines 264–277): scissor, bound descriptor set, `draw_indexed` index count,
and the push constants carrying the logical screen size. -/
structure DrawCmd where
  scissor : ScissorM
  descriptorSet : DS
  indexCount : Nat
  pushConstants : ℚ × ℚ
deriving DecidableEq, Repr

/-- The mesh loop of `draw` (lines 209–278): skip meshes with no vertices or
no indices; resolve the descriptor set (panic — `none` — on a missing one);
append one indexed draw command per remaining mesh. -/
def drawCommands (s : UiDrawSystemM) (viewportSize : SizeM)
    (scaleFactor : ℚ) : List Mesh → Option (List DrawCmd)
  | [] => some []
  | m :: rest =>
    if m.vertices.isEmpty || m.indices.isEmpty then
      drawCommands s viewportSize scaleFactor rest
    else
      match s.resolveDescriptorSet m.textureId with
      | none => none
      | some ds =>
          (drawCommands s viewportSize scaleFactor rest).map
            (fun cmds =>
              { scissor := scissorOf m.rect scaleFactor
                  (viewportSize.width : ℚ) (viewportSize.height : ℚ)
                descriptorSet := ds
                indexCount := m.indices.length
                pushConstants :=
                  ((viewportSize.width : ℚ) / scaleFactor,
                   (viewportSize.height : ℚ) / scaleFactor) } :: cmds)

/-- The result of a `draw` call: the updated system state, the number of
atlas image uploads performed during the call, and the recorded command list
(`none` = panic). -/
structure DrawResult where
  state : UiDrawSystemM
  uploads : Nat
  commands : Option (List DrawCmd)
deriving DecidableEq, Repr

/-- `UiDrawSystem::draw` (lines 161–281).  First the version guard
(lines 177–201): iff the supplied atlas version differs from the stored one,
upload the atlas image, build its descriptor set and store both the set and
the new version.  Then the mesh loop. -/
def UiDrawSystemM.draw (s : UiDrawSystemM) (viewportSize : SizeM)
    (scaleFactor : ℚ) (meshes : List Mesh) (texture : TextureAtlas) :
    DrawResult :=
  let rebuilt := texture.version ≠ s.textureVersion
  let s' :=
    if rebuilt then
      { s with
          textureVersion := texture.version
          textureDescriptorSet :=
            some (DS.sampledImage (ImageViewM.ofImage (atlasImage texture))) }
    else s
  { state := s'
    uploads := if rebuilt then 1 else 0
    commands := drawCommands s' viewportSize scaleFactor meshes }

/-!
## Semaphore destruction

Embedding of `Semaphore::drop` (titan-engine/src/graphics/sync/semaphore.rs
lines 50–62).  The process-wide device registry is a generational slot map
behind a reader/writer lock; acquiring the read lock may fail (poisoned
lock), modelled by `Except`.
-/

/-- A device as the semaphore destructor sees it: its registry entry gives
access to the native device loader (modelled by a raw handle). -/
structure DeviceM where
  handle : Nat
deriving DecidableEq, Repr

/-- A semaphore: its native handle and the registry key of its parent
device. -/
structure SemaphoreM where
  handle : Nat
  parentDevice : KeyM
deriving DecidableEq, Repr

/-- `Semaphore::drop`: if the device registry's read lock is poisoned,
return; if the parent device key no longer resolves, return; otherwise issue
the native semaphore destruction through the parent's loader.  The returned
list is the sequence of native driver calls issued. -/
def semaphoreDrop (registry : Except Unit (SlotMapM DeviceM))
    (sem : SemaphoreM) : List NativeCall :=
  match registry with
  | .error _ => []
  | .ok sm =>
      match sm.get sem.parentDevice with
      | none => []
      | some d => [NativeCall.destroySemaphore d.handle sem.handle]

/-!
## Concrete fixtures

Concrete environments and states used to instantiate the theorems below.
-/

/-- A driver environment in which every stage before instance creation
succeeds and the creation request itself fails with
`ERROR_INITIALIZATION_FAILED`. -/
def envCreateFail : VulkanEntryEnv :=
  { load := .ok ()
    tryEnumerateVersion := .ok (some 4202496)
    layerProperties := .ok []
    extensionProperties := .ok []
    surfaceExtensions := .ok ["VK_KHR_surface"]
    createInstance := fun _ _ => .error VkResult.errorInitializationFailed }

/-- A driver environment in which the shared driver library fails to load. -/
def envLoadFail : VulkanEntryEnv :=
  { load := .error "libvulkan.so.1: cannot open shared object file"
    tryEnumerateVersion := .ok none
    layerProperties := .ok []
    extensionProperties := .ok []
    surfaceExtensions := .ok []
    createInstance := fun _ _ => .ok 1 }

/-- A concrete texture atlas, version 7. -/
def atlasFixture : TextureAtlas :=
  ⟨7, 2, 2, [0, 1, 2, 3]⟩

/-- A concrete texture atlas with version 0 (the version a fresh
`UiDrawSystem` stores). -/
def atlasV0 : TextureAtlas :=
  ⟨0, 1, 1, [0]⟩

/-- The base-texture descriptor set built from `atlasFixture`. -/
def baseSetFixture : DS :=
  DS.sampledImage (ImageViewM.ofImage (atlasImage atlasFixture))

/-- A draw system in steady state: stored atlas version 7 (that of
`atlasFixture`), cached base set present, empty user registry. -/
def steadyState : UiDrawSystemM :=
  { textureVersion := 7
    textureDescriptorSet := some baseSetFixture
    userTextureDescriptorSets := SlotMapM.empty }

/-- A three-vertex mesh with the given clip rectangle, texture reference and
index list. -/
def meshRect (r : RectQ) (tid : TextureId) (inds : List Nat) : Mesh :=
  { rect := r
    vertices := [⟨(0, 0), (0, 0), 0⟩, ⟨(1, 0), (1, 0), 0⟩, ⟨(0, 1), (0, 1), 0⟩]
    indices := inds
    textureId := tid }

/-- A registered user-texture descriptor set fixture. -/
def liveUserSet : DS :=
  DS.sampledImage (ImageViewM.user 9)

/-- A draw system whose user registry holds one live entry, at slot 0 with
version 1 (FFI id `2 ^ 32`). -/
def oneUserState : UiDrawSystemM :=
  { textureVersion := 7
    textureDescriptorSet := some baseSetFixture
    userTextureDescriptorSets := ⟨[⟨1, some liveUserSet⟩], []⟩ }
theorem SlotMapM.WF_empty {V : Type} : (empty (V := V)).WF := by
  constructor
  · exact List.nodup_nil
  · intro i hi
    simp [empty] at hi


/-- An index with a resolving `getElem?` is in bounds. -/
theorem SlotMapM.lt_length_of_getElem? {α : Type} {l : List α} {i : Nat} {a : α}
    (h : l[i]? = some a) : i < l.length := by
  by_contra hcon
  rw [List.getElem?_eq_none (by omega)] at h
  exact Option.noConfusion h

/-- A key freshly produced by `insert` on a well-formed map has odd version. -/
theorem SlotMapM.insert_version_odd {V : Type} (m : SlotMapM V) (v : V) (hwf : m.WF) :
    (m.insert v).1.version % 2 = 1 := by
  obtain ⟨-, hfree⟩ := hwf
  unfold insert
  rcases hf : m.free with _ | ⟨i, rest⟩
  · simp
  · obtain ⟨sl, hsl, hev⟩ := hfree i (by rw [hf]; exact List.mem_cons_self ..)
    simp only [hsl]
    omega

/-- A live key resolves to its value in the map produced by inserting it. -/
theorem SlotMapM.get_insert_self {V : Type} (m : SlotMapM V) (v : V) (hwf : m.WF) :
    (m.insert v).2.get (m.insert v).1 = some v := by
  obtain ⟨-, hfree⟩ := hwf
  unfold insert
  rcases hf : m.free with _ | ⟨i, rest⟩
  · simp [get, List.getElem?_concat_length]
  · obtain ⟨sl, hsl, hev⟩ := hfree i (by rw [hf]; exact List.mem_cons_self ..)
    have hlt : i < m.slots.length := lt_length_of_getElem? hsl
    simp only [hsl]
    simp only [get, List.getElem?_set_self hlt]
    simp
    omega

/-- Removing a key makes that key unresolvable (its slot's version is bumped
past the key's). -/
theorem SlotMapM.get_remove_self {V : Type} (m : SlotMapM V) (k : KeyM) (v : V)
    (h : m.get k = some v) : (m.remove k).get k = none := by
  unfold get at h
  split at h
  case h_2 => exact Option.noConfusion h
  case h_1 sl hs =>
    split at h
    case isFalse => exact Option.noConfusion h
    case isTrue hc =>
      have hlt : k.idx < m.slots.length := lt_length_of_getElem? hs
      unfold remove
      simp only [hs, if_pos hc]
      unfold get
      simp [List.getElem?_set_self hlt]

/-- Removing a different key never disturbs a live key's resolution. -/
theorem SlotMapM.get_remove_ne {V : Type} (m : SlotMapM V) (k k' : KeyM) (v : V)
    (hne : k' ≠ k) (h : m.get k = some v) : (m.remove k').get k = some v := by
  have hg := h
  unfold get at h
  split at h
  case h_2 => exact Option.noConfusion h
  case h_1 sl hs =>
    split at h
    case isFalse => exact Option.noConfusion h
    case isTrue hc =>
      unfold remove
      rcases hs' : m.slots[k'.idx]? with _ | sl'
      · exact hg
      · by_cases hc' : sl'.version = k'.version ∧ sl'.version % 2 = 1
        · simp only [if_pos hc']
          by_cases hidx : k'.idx = k.idx
          · exfalso
            rw [hidx, hs] at hs'
            cases hs'
            apply hne
            have : k'.version = k.version := by omega
            cases k; cases k'
            simp_all
          · unfold get
            simp only [List.getElem?_set_ne hidx, hs, if_pos hc]
            exact h
        · simp only [if_neg hc']
          exact hg

/-- Inserting a new value never disturbs a live key's resolution. -/
theorem SlotMapM.get_insert_ne {V : Type} (m : SlotMapM V) (k : KeyM) (v v' : V)
    (hwf : m.WF) (h : m.get k = some v) : (m.insert v').2.get k = some v := by
  obtain ⟨-, hfree⟩ := hwf
  unfold get at h
  split at h
  case h_2 => exact Option.noConfusion h
  case h_1 sl hs =>
    split at h
    case isFalse => exact Option.noConfusion h
    case isTrue hc =>
      have hlt : k.idx < m.slots.length := lt_length_of_getElem? hs
      unfold insert
      rcases hf : m.free with _ | ⟨i, rest⟩
      · unfold get
        simp only [List.getElem?_append_left hlt, hs, if_pos hc]
        exact h
      · obtain ⟨sl₂, hsl₂, hev⟩ := hfree i (by rw [hf]; exact List.mem_cons_self ..)
        have hine : i ≠ k.idx := by
          intro hcon
          rw [hcon, hs] at hsl₂
          cases hsl₂
          omega
        simp only [hsl₂]
        unfold get
        simp only [List.getElem?_set_ne hine, hs, if_pos hc]
        exact h

/-- `remove` preserves well-formedness. -/
theorem SlotMapM.WF_remove {V : Type} (m : SlotMapM V) (k : KeyM) (hwf : m.WF) :
    (m.remove k).WF := by
  obtain ⟨hnd, hfree⟩ := hwf
  unfold remove
  split
  case h_2 => exact ⟨hnd, hfree⟩
  case h_1 sl hs =>
    split
    case isFalse => exact ⟨hnd, hfree⟩
    case isTrue hc =>
      obtain ⟨hv, hodd⟩ := hc
      have hnotfree : k.idx ∉ m.free := by
        intro hmem
        obtain ⟨sl₂, hsl₂, hev⟩ := hfree k.idx hmem
        rw [hs] at hsl₂
        cases hsl₂
        omega
      refine ⟨List.Nodup.cons hnotfree hnd, ?_⟩
      intro i hi
      rcases List.mem_cons.mp hi with hik | hifree
      · subst hik
        have hlt : k.idx < m.slots.length := lt_length_of_getElem? hs
        refine ⟨⟨sl.version + 1, none⟩, by simp [List.getElem?_set_self hlt], ?_⟩
        show (sl.version + 1) % 2 = 0
        omega
      · obtain ⟨sl₂, hsl₂, hev⟩ := hfree i hifree
        have hine : k.idx ≠ i := fun hcon => hnotfree (hcon ▸ hifree)
        exact ⟨sl₂, by rw [List.getElem?_set_ne hine]; exact hsl₂, hev⟩

/-- Round trip of the FFI key encoding on in-range keys of odd version. -/
theorem SlotMapM.fromFfi_asFfi (k : KeyM) (hodd : k.version % 2 = 1)
    (hidx : k.idx < 2 ^ 32) (hver : k.version < 2 ^ 32) :
    KeyM.fromFfi k.asFfi = k := by
  obtain ⟨i, ver⟩ := k
  simp only [KeyM.asFfi, KeyM.fromFfi, orOne, KeyM.mk.injEq] at *
  constructor <;> omega


/-- `insert` preserves well-formedness. -/
theorem SlotMapM.WF_insert {V : Type} (m : SlotMapM V) (v : V) (hwf : m.WF) :
    (m.insert v).2.WF := by
  obtain ⟨hnd, hfree⟩ := hwf
  unfold insert
  rcases hf : m.free with _ | ⟨i, rest⟩
  · exact ⟨List.nodup_nil, by intro j hj; cases hj⟩
  · rw [hf] at hnd hfree
    rcases hs : m.slots[i]? with _ | sl
    · simp only [hs]
      refine ⟨hnd.of_cons, ?_⟩
      intro j hj
      obtain ⟨sl₂, hsl₂, hev⟩ := hfree j (List.mem_cons_of_mem i hj)
      have hlt : j < m.slots.length := lt_length_of_getElem? hsl₂
      exact ⟨sl₂, by rw [List.getElem?_append_left hlt]; exact hsl₂, hev⟩
    · simp only [hs]
      refine ⟨hnd.of_cons, ?_⟩
      intro j hj
      obtain ⟨sl₂, hsl₂, hev⟩ := hfree j (List.mem_cons_of_mem i hj)
      have hine : i ≠ j := by
        intro hcon
        subst hcon
        exact (List.nodup_cons.mp hnd).1 hj
      exact ⟨sl₂, by rw [List.getElem?_set_ne hine]; exact hsl₂, hev⟩

/-- If some mesh of the batch has vertices and indices but an unresolvable
texture reference, the whole mesh loop of `draw` panics (records `none`). -/
theorem drawCommands_mem_none (s : UiDrawSystemM) (vp : SizeM) (sc : ℚ)
    (meshes : List Mesh) (m : Mesh) (hm : m ∈ meshes)
    (hverts : m.vertices ≠ []) (hinds : m.indices ≠ [])
    (hr : s.resolveDescriptorSet m.textureId = none) :
    drawCommands s vp sc meshes = none := by
  induction meshes with
  | nil => cases hm
  | cons hd tl ih =>
    rcases List.mem_cons.mp hm with rfl | hmem
    · have h1 : m.vertices.isEmpty = false := by
        rcases hv2 : m.vertices with _ | _
        · exact absurd hv2 hverts
        · rfl
      have h2 : m.indices.isEmpty = false := by
        rcases hv2 : m.indices with _ | _
        · exact absurd hv2 hinds
        · rfl
      simp [drawCommands, h1, h2, hr]
    · by_cases hskip : (hd.vertices.isEmpty || hd.indices.isEmpty) = true
      · simp [drawCommands, hskip, ih hmem]
      · rcases hres : s.resolveDescriptorSet hd.textureId with _ | ds
        · simp [drawCommands, hskip, hres]
        · simp [drawCommands, hskip, hres, ih hmem]

/-- C1 (counterexample): the claim requires a device wait-idle driver call
before the destroy-device call in `Device::drop`; in fact the destructor's
driver-call trace holds no wait-idle call at all. -/
theorem deviceDropTrace_no_waitIdle :
    deviceDropTrace.contains NativeCall.deviceWaitIdle = false := by decide

/-- C1 (amended): when a `Device` is destroyed, its teardown releases the
native logical-device connection with a single destroy-device driver call,
with no wait-idle barrier before it. -/
theorem deviceDropTrace_destroy_only :
    deviceDropTrace = [NativeCall.destroyDevice] := rfl

/-- C9: when the shared driver library cannot be loaded, `Instance::new`
fails with the error designated for that condition: the `Other` variant with
message "Vulkan library cannot be loaded" wrapping the loading error (the
spec's driver-unavailable failure, which its taxonomy realizes as `Other`). -/
theorem instanceNew_driver_unavailable (enableValidation : Bool)
    (config : Config) (env : VulkanEntryEnv) (e : String)
    (hload : env.load = .error e) :
    instanceNew enableValidation config env =
      some (.error (.Other "Vulkan library cannot be loaded"
        (some (.loading e)))) := by
  simp [instanceNew, hload]

/-- C9 witness: the load-failure environment produces exactly the
driver-unavailable error. -/
theorem instanceNew_driver_unavailable_witness :
    instanceNew true ⟨"app"⟩ envLoadFail =
      some (.error (.Other "Vulkan library cannot be loaded"
        (some (.loading "libvulkan.so.1: cannot open shared object file")))) :=
  instanceNew_driver_unavailable true ⟨"app"⟩ envLoadFail
    "libvulkan.so.1: cannot open shared object file" rfl

/-- C7: destroying a `Semaphore` whose parent device key no longer resolves
in the device registry, or whose registry lock cannot be acquired, issues no
native driver call and completes without error or panic. -/
theorem semaphoreDrop_missing_parent_noop
    (registry : Except Unit (SlotMapM DeviceM)) (sem : SemaphoreM)
    (h : registry = .error () ∨
      ∃ sm, registry = .ok sm ∧ sm.get sem.parentDevice = none) :
    semaphoreDrop registry sem = [] := by
  rcases h with h | ⟨sm, hr, hg⟩
  · simp [semaphoreDrop, h]
  · simp [semaphoreDrop, hr, hg]

/-- C7 witness: a semaphore whose parent key misses the (empty) device
registry destructs as a no-op. -/
theorem semaphoreDrop_missing_parent_noop_witness :
    semaphoreDrop (.ok SlotMapM.empty) ⟨5, ⟨0, 1⟩⟩ = [] :=
  semaphoreDrop_missing_parent_noop (.ok SlotMapM.empty) ⟨5, ⟨0, 1⟩⟩
    (Or.inr ⟨SlotMapM.empty, rfl, rfl⟩)

/-- C2 (counterexample): with every stage before instance creation
succeeding and the creation request failing with
`ERROR_INITIALIZATION_FAILED`, `Instance::new` does not return the
`Graphics` variant carrying that status — the claimed wrapping fails on the
code, which maps this failure to `Other`. -/
theorem instanceNew_createFail_not_Graphics :
    instanceNew true ⟨"app"⟩ envCreateFail ≠
      some (.error (Error.Graphics VkResult.errorInitializationFailed)) := by
  have heq : instanceNew true ⟨"app"⟩ envCreateFail =
      some (.error (.Other "ERROR_INITIALIZATION_FAILED"
        (some (.vk VkResult.errorInitializationFailed)))) := rfl
  rw [heq]
  simp

/-- C2 (amended): whenever the native instance-creation request fails with a
driver status code, `Instance::new` returns the failure wrapped as the
`Other` variant whose message is the status code's rendering and whose
source is that status code — and it does not panic on that path. -/
theorem instanceNew_createFail_other (enableValidation : Bool)
    (config : Config) (env : VulkanEntryEnv) (r : VkResult)
    (hload : env.load = .ok ())
    (hver : ∃ v, env.tryEnumerateVersion = .ok v)
    (hlayers : ∃ ls, env.layerProperties = .ok ls)
    (hexts : ∃ es, env.extensionProperties = .ok es)
    (hnul : hasNulByte config.name = false)
    (hsurf : ∃ ss, env.surfaceExtensions = .ok ss)
    (hcreate : ∀ layers exts, env.createInstance layers exts = .error r) :
    instanceNew enableValidation config env =
      some (.error (.Other r.display (some (.vk r)))) := by
  obtain ⟨v, hv⟩ := hver
  obtain ⟨ls, hl⟩ := hlayers
  obtain ⟨es, he⟩ := hexts
  obtain ⟨ss, hs⟩ := hsurf
  simp [instanceNew, hload, hv, hl, he, hnul, hs, hcreate]

/-- C2 witness: the concrete creation-failure environment yields the `Other`
wrapping of `ERROR_INITIALIZATION_FAILED`. -/
theorem instanceNew_createFail_other_witness :
    instanceNew true ⟨"app"⟩ envCreateFail =
      some (.error (.Other "ERROR_INITIALIZATION_FAILED"
        (some (.vk VkResult.errorInitializationFailed)))) :=
  instanceNew_createFail_other true ⟨"app"⟩ envCreateFail
    VkResult.errorInitializationFailed rfl ⟨some 4202496, rfl⟩ ⟨[], rfl⟩
    ⟨[], rfl⟩ (by decide) ⟨["VK_KHR_surface"], rfl⟩ (fun _ _ => rfl)

/-- C3: the atlas-version guard of `draw` — a call with an unchanged atlas
version performs zero image uploads and leaves the cached descriptor set
unchanged; a call with a changed version performs exactly one upload and
stores the new version; consequently the second of two consecutive calls
with equal atlas versions performs zero uploads and keeps the cached set. -/
theorem draw_version_guard (s : UiDrawSystemM) (vp vp' : SizeM) (sc sc' : ℚ)
    (ms ms' : List Mesh) (t t' : TextureAtlas) (hv : t'.version = t.version) :
    (t.version = s.textureVersion →
      (s.draw vp sc ms t).uploads = 0 ∧
      (s.draw vp sc ms t).state.textureDescriptorSet = s.textureDescriptorSet ∧
      (s.draw vp sc ms t).state.textureVersion = s.textureVersion) ∧
    (t.version ≠ s.textureVersion →
      (s.draw vp sc ms t).uploads = 1 ∧
      (s.draw vp sc ms t).state.textureVersion = t.version) ∧
    ((s.draw vp sc ms t).state.draw vp' sc' ms' t').uploads = 0 ∧
    ((s.draw vp sc ms t).state.draw vp' sc' ms' t').state.textureDescriptorSet =
      (s.draw vp sc ms t).state.textureDescriptorSet := by
  refine ⟨?_, ?_, ?_, ?_⟩
  · intro h
    simp [UiDrawSystemM.draw, h]
  · intro h
    simp [UiDrawSystemM.draw, h]
  · by_cases h : t.version = s.textureVersion
    · simp [UiDrawSystemM.draw, h, hv]
    · simp [UiDrawSystemM.draw, h, hv]
  · by_cases h : t.version = s.textureVersion
    · simp [UiDrawSystemM.draw, h, hv]
    · simp [UiDrawSystemM.draw, h, hv]

/-- C3 witness: a steady-state call with the already-stored atlas version
uploads nothing and keeps the cached set and version. -/
theorem draw_version_guard_witness :
    (steadyState.draw ⟨800, 600⟩ 1 [] atlasFixture).uploads = 0 ∧
    (steadyState.draw ⟨800, 600⟩ 1 [] atlasFixture).state.textureDescriptorSet =
      steadyState.textureDescriptorSet ∧
    (steadyState.draw ⟨800, 600⟩ 1 [] atlasFixture).state.textureVersion =
      steadyState.textureVersion :=
  (draw_version_guard steadyState ⟨800, 600⟩ ⟨800, 600⟩ 1 1 [] [] atlasFixture
    atlasFixture rfl).1 rfl

/-- C5: the per-mesh clip rectangle is the mesh rectangle scaled by the
display scale factor, clamped to the viewport, and rounded to integer pixel
bounds with min clamped below max; for viewport 800×600, scale factor 2 and
mesh rect min=(10,10) max=(50,50) in logical units, the scissor recorded by
`draw` has origin (20,20) and dimensions (80,80). -/
theorem draw_scissor_example :
    scissorOf ⟨10, 10, 50, 50⟩ 2 800 600 = ⟨(20, 20), (80, 80)⟩ ∧
    (steadyState.draw ⟨800, 600⟩ 2
        [meshRect ⟨10, 10, 50, 50⟩ TextureId.Egui [0, 1, 2]]
        atlasFixture).commands.map (List.map DrawCmd.scissor) =
      some [⟨(20, 20), (80, 80)⟩] := by
  have h : scissorOf ⟨10, 10, 50, 50⟩ 2 800 600 = ⟨(20, 20), (80, 80)⟩ := by
    simp only [scissorOf, clampQ, roundQ, castU32]
    norm_num
    decide
  refine ⟨h, ?_⟩
  simpa [UiDrawSystemM.draw, drawCommands, steadyState, meshRect, atlasFixture,
    UiDrawSystemM.resolveDescriptorSet] using h

/-- C6: `draw` skips every mesh whose vertex list or index list is empty,
recording no command and raising no error for it; a batch of three meshes
whose second has zero indices records exactly two indexed draw commands. -/
theorem draw_skips_empty_meshes (s : UiDrawSystemM) (vp : SizeM) (sc : ℚ)
    (m : Mesh) (rest : List Mesh) (h : m.vertices = [] ∨ m.indices = []) :
    drawCommands s vp sc (m :: rest) = drawCommands s vp sc rest ∧
    (steadyState.draw ⟨800, 600⟩ 1
        [meshRect ⟨0, 0, 1, 1⟩ TextureId.Egui [0, 1, 2],
         meshRect ⟨0, 0, 1, 1⟩ TextureId.Egui [],
         meshRect ⟨2, 2, 3, 3⟩ TextureId.Egui [0, 2, 1]]
        atlasFixture).commands.map List.length = some 2 := by
  constructor
  · have hskip : (m.vertices.isEmpty || m.indices.isEmpty) = true := by
      rcases h with h | h <;> simp [h]
    simp [drawCommands, hskip]
  · simp [UiDrawSystemM.draw, drawCommands, steadyState, meshRect,
      atlasFixture, UiDrawSystemM.resolveDescriptorSet]

/-- C6 witness: a single mesh with zero indices records nothing. -/
theorem draw_skips_empty_meshes_witness :
    (drawCommands steadyState ⟨800, 600⟩ 1
        [meshRect ⟨0, 0, 1, 1⟩ TextureId.Egui []] =
      drawCommands steadyState ⟨800, 600⟩ 1 []) ∧
    (steadyState.draw ⟨800, 600⟩ 1
        [meshRect ⟨0, 0, 1, 1⟩ TextureId.Egui [0, 1, 2],
         meshRect ⟨0, 0, 1, 1⟩ TextureId.Egui [],
         meshRect ⟨2, 2, 3, 3⟩ TextureId.Egui [0, 2, 1]]
        atlasFixture).commands.map List.length = some 2 :=
  draw_skips_empty_meshes steadyState ⟨800, 600⟩ 1
    (meshRect ⟨0, 0, 1, 1⟩ TextureId.Egui []) [] (Or.inr rfl)

/-- C8: in `draw`, a mesh referencing a `User` texture id that misses the
user-texture registry is a fatal precondition violation (the whole call
panics, recording `none`), not an error return; a registered id binds that
entry's descriptor set, and the built-in atlas id binds the cached
base-texture set. -/
theorem draw_descriptor_resolution (s : UiDrawSystemM) (vp : SizeM) (sc : ℚ)
    (m : Mesh) (t : TextureAtlas) (id : Nat) (ds : DS)
    (hv : t.version = s.textureVersion)
    (hverts : m.vertices ≠ []) (hinds : m.indices ≠ []) :
    (m.textureId = TextureId.User id →
      s.userTextureDescriptorSets.get (KeyM.fromFfi id) = none →
      (s.draw vp sc [m] t).commands = none) ∧
    (m.textureId = TextureId.User id →
      s.userTextureDescriptorSets.get (KeyM.fromFfi id) = some ds →
      (s.draw vp sc [m] t).commands.map (List.map DrawCmd.descriptorSet) =
        some [ds]) ∧
    (m.textureId = TextureId.Egui → s.textureDescriptorSet = some ds →
      (s.draw vp sc [m] t).commands.map (List.map DrawCmd.descriptorSet) =
        some [ds]) := by
  have h1 : m.vertices.isEmpty = false := by
    rcases hv2 : m.vertices with _ | _
    · exact absurd hv2 hverts
    · rfl
  have h2 : m.indices.isEmpty = false := by
    rcases hv2 : m.indices with _ | _
    · exact absurd hv2 hinds
    · rfl
  refine ⟨?_, ?_, ?_⟩
  · intro hid hget
    simp [UiDrawSystemM.draw, hv, drawCommands, h1, h2, hid,
      UiDrawSystemM.resolveDescriptorSet, hget]
  · intro hid hget
    simp [UiDrawSystemM.draw, hv, drawCommands, h1, h2, hid,
      UiDrawSystemM.resolveDescriptorSet, hget]
  · intro hid hget
    simp [UiDrawSystemM.draw, hv, drawCommands, h1, h2, hid,
      UiDrawSystemM.resolveDescriptorSet, hget]

/-- C8 witness: a mesh referencing an unregistered user texture makes the
steady-state `draw` panic. -/
theorem draw_descriptor_resolution_witness :
    (steadyState.draw ⟨800, 600⟩ 1
        [meshRect ⟨0, 0, 1, 1⟩ (TextureId.User 0) [0, 1, 2]]
        atlasFixture).commands = none :=
  (draw_descriptor_resolution steadyState ⟨800, 600⟩ 1
      (meshRect ⟨0, 0, 1, 1⟩ (TextureId.User 0) [0, 1, 2]) atlasFixture 0
      baseSetFixture rfl (by decide) (by decide)).1 rfl rfl

/-- C10: a freshly constructed `UiDrawSystem` stores atlas version 0 and no
base-texture descriptor set; a first `draw` call whose atlas version equals 0
does not fire the version guard and builds no descriptor set, and any mesh of
that batch referencing the built-in atlas texture makes the call panic
(record `none`) rather than return an error. -/
theorem uiDrawSystemNew_version_zero_draw (vp : SizeM) (sc : ℚ)
    (meshes : List Mesh) (m : Mesh) (t : TextureAtlas) (hv : t.version = 0)
    (hm : m ∈ meshes) (hverts : m.vertices ≠ []) (hinds : m.indices ≠ [])
    (hid : m.textureId = TextureId.Egui) :
    uiDrawSystemNew.textureVersion = 0 ∧
    uiDrawSystemNew.textureDescriptorSet = none ∧
    (uiDrawSystemNew.draw vp sc meshes t).uploads = 0 ∧
    (uiDrawSystemNew.draw vp sc meshes t).state.textureDescriptorSet = none ∧
    (uiDrawSystemNew.draw vp sc meshes t).commands = none := by
  have hres : uiDrawSystemNew.resolveDescriptorSet m.textureId = none := by
    simp [hid, UiDrawSystemM.resolveDescriptorSet, uiDrawSystemNew]
  have hcmds := drawCommands_mem_none uiDrawSystemNew vp sc meshes m hm
    hverts hinds hres
  simp only [uiDrawSystemNew] at hcmds
  refine ⟨rfl, rfl, ?_, ?_, ?_⟩ <;>
    simp [UiDrawSystemM.draw, uiDrawSystemNew, hv, hcmds]

/-- C10 witness: the fresh system with a version-0 atlas and one atlas-bound
mesh satisfies all five conjuncts. -/
theorem uiDrawSystemNew_version_zero_draw_witness :
    uiDrawSystemNew.textureVersion = 0 ∧
    uiDrawSystemNew.textureDescriptorSet = none ∧
    (uiDrawSystemNew.draw ⟨800, 600⟩ 1
      [meshRect ⟨0, 0, 1, 1⟩ TextureId.Egui [0, 1, 2]] atlasV0).uploads = 0 ∧
    (uiDrawSystemNew.draw ⟨800, 600⟩ 1
      [meshRect ⟨0, 0, 1, 1⟩ TextureId.Egui [0, 1, 2]]
        atlasV0).state.textureDescriptorSet = none ∧
    (uiDrawSystemNew.draw ⟨800, 600⟩ 1
      [meshRect ⟨0, 0, 1, 1⟩ TextureId.Egui [0, 1, 2]] atlasV0).commands =
      none :=
  uiDrawSystemNew_version_zero_draw ⟨800, 600⟩ 1
    [meshRect ⟨0, 0, 1, 1⟩ TextureId.Egui [0, 1, 2]]
    (meshRect ⟨0, 0, 1, 1⟩ TextureId.Egui [0, 1, 2]) atlasV0 rfl
    (List.mem_cons_self _ _) (by decide) (by decide) rfl

/-- C4: user-texture registry discipline of `UiDrawSystem` — registering a
texture and then unregistering the returned id makes a subsequent lookup of
that id a miss; `unregister_texture` is a no-op on the built-in id; and a
registration performed after an unregistration never disturbs the resolution
of a still-live unrelated registered entry (generation discipline prevents
slot-reuse aliasing). -/
theorem registerTexture_generation_discipline (s : UiDrawSystemM)
    (hwf : s.userTextureDescriptorSets.WF) (iv iv' id₀ id' : Nat) (ds₀ : DS)
    (hidx : (s.userTextureDescriptorSets.insert
        (DS.sampledImage (ImageViewM.user iv))).1.idx < 2 ^ 32)
    (hver : (s.userTextureDescriptorSets.insert
        (DS.sampledImage (ImageViewM.user iv))).1.version < 2 ^ 32)
    (hlive : s.userTextureDescriptorSets.get (KeyM.fromFfi id₀) = some ds₀)
    (hne : KeyM.fromFfi id' ≠ KeyM.fromFfi id₀) :
    ((s.registerTexture iv).2.unregisterTexture
        (s.registerTexture iv).1).resolveDescriptorSet
      (s.registerTexture iv).1 = none ∧
    s.unregisterTexture TextureId.Egui = s ∧
    ((s.unregisterTexture (TextureId.User id')).registerTexture
        iv').2.resolveDescriptorSet (TextureId.User id₀) = some ds₀ := by
  refine ⟨?_, rfl, ?_⟩
  · have hodd := SlotMapM.insert_version_odd s.userTextureDescriptorSets
      (DS.sampledImage (ImageViewM.user iv)) hwf
    have hrt := SlotMapM.fromFfi_asFfi _ hodd hidx hver
    show SlotMapM.get
        ((s.userTextureDescriptorSets.insert
            (DS.sampledImage (ImageViewM.user iv))).2.remove
          (KeyM.fromFfi (s.userTextureDescriptorSets.insert
            (DS.sampledImage (ImageViewM.user iv))).1.asFfi))
        (KeyM.fromFfi (s.userTextureDescriptorSets.insert
            (DS.sampledImage (ImageViewM.user iv))).1.asFfi) = none
    rw [hrt]
    exact SlotMapM.get_remove_self _ _ _
      (SlotMapM.get_insert_self s.userTextureDescriptorSets _ hwf)
  · show SlotMapM.get
        ((s.userTextureDescriptorSets.remove (KeyM.fromFfi id')).insert
          (DS.sampledImage (ImageViewM.user iv'))).2 (KeyM.fromFfi id₀) =
      some ds₀
    exact SlotMapM.get_insert_ne _ _ _ _ (SlotMapM.WF_remove _ _ hwf)
      (SlotMapM.get_remove_ne _ _ _ _ hne hlive)

/-- C4 witness at a concrete one-entry registry. -/
theorem registerTexture_generation_discipline_witness :
    ((oneUserState.registerTexture 5).2.unregisterTexture
        (oneUserState.registerTexture 5).1).resolveDescriptorSet
      (oneUserState.registerTexture 5).1 = none ∧
    oneUserState.unregisterTexture TextureId.Egui = oneUserState ∧
    ((oneUserState.unregisterTexture (TextureId.User 1)).registerTexture
        6).2.resolveDescriptorSet (TextureId.User 4294967296) =
      some liveUserSet :=
  registerTexture_generation_discipline oneUserState
    ⟨List.nodup_nil, fun i hi => absurd hi (List.not_mem_nil i)⟩
    5 6 4294967296 1 liveUserSet (by decide) (by decide) (by decide)
    (by decide)
